import Mathlib

/-!
Verification of the deephaven-plugin object export and bidirectional
messaging core.

The Python source is shallowly embedded as follows:
* object identity is modelled by a `Nat` identifier;
* byte strings are modelled as `List Nat`;
* an `ObjectType` plugin is modelled by its observable surface: its `name`
  and its `is_type` predicate;
* the external registration collaborator (`register_all_into`) is modelled
  by the flattened, ordered sequence of `Callback.register` invocations it
  performs, each carrying either a plugin instance or a plugin class.
-/

namespace DeephavenPlugin

/-- Embedding of `Reference` (src/deephaven/plugin/object.py): an index
assigned in creation order plus an optional type tag. -/
structure Reference where
  index : Nat
  type : Option String
deriving DecidableEq, Repr

/-- The observable surface of an `ObjectType` plugin: its `name` property and
its `is_type` compatibility predicate (src/deephaven/plugin/object.py). -/
structure ObjectTypeModel where
  name : String
  is_type : Nat → Bool

/-- One `Callback.register` argument: a plugin instance or a plugin class.
`instObj`/`clsObj` are (instances of / classes subclassing) `ObjectType`;
`instOther`/`clsOther` are registered plugins of unrelated kinds.
Instantiating a class `clsObj p` yields the instance `p`. -/
inductive RegisteredPlugin where
  | instObj (p : ObjectTypeModel)
  | instOther
  | clsObj (p : ObjectTypeModel)
  | clsOther

/-- One step of the `Visitor.register` method inside `find_object_type`
(src/deephaven/plugin/object.py lines 157-166): skip when a handler was
already found; skip classes that do not subclass `ObjectType`, instantiating
the ones that do; record the plugin when it is an `ObjectType` instance whose
`is_type obj` holds. -/
def visitorStep (obj : Nat) (found : Option ObjectTypeModel)
    (plugin : RegisteredPlugin) : Option ObjectTypeModel :=
  match found with
  | some p => some p
  | none =>
    match plugin with
    | .instOther => none
    | .clsOther => none
    | .instObj p => if p.is_type obj then some p else none
    | .clsObj p => if p.is_type obj then some p else none

/-- Embedding of `find_object_type` (src/deephaven/plugin/object.py lines
152-174): run the visitor over every registered plugin, in registration
order, and return what it found. -/
def find_object_type (plugins : List RegisteredPlugin) (obj : Nat) :
    Option ObjectTypeModel :=
  plugins.foldl (visitorStep obj) none

/-- The handler a registered plugin contributes: the instance itself, or the
instance obtained by instantiating a registered handler class. -/
def RegisteredPlugin.handlerOf : RegisteredPlugin → Option ObjectTypeModel
  | .instObj p => some p
  | .clsObj p => some p
  | .instOther => none
  | .clsOther => none

/-- Spec-side definition of type resolution, written from the spec's words
(section 4.2): the first registered handler, in registration order, whose
`is_type` predicate is true; none when no handler matches. Compared with
`find_object_type` in the refinement theorem for C2. -/
def firstMatchingHandler : List RegisteredPlugin → Nat → Option ObjectTypeModel
  | [], _ => none
  | p :: rest, obj =>
    match p.handlerOf with
    | some h => if h.is_type obj then some h else firstMatchingHandler rest obj
    | none => firstMatchingHandler rest obj

/-- One step of the `IsObjectType.register` method inside
`has_object_type_plugin` (src/deephaven/plugin/object/__init__.py lines
12-20): skip when already found; skip non-handler classes, instantiating
handler classes; otherwise record the value of `is_type obj`. -/
def isObjectTypeStep (obj : Nat) (found : Bool)
    (plugin : RegisteredPlugin) : Bool :=
  if found then found
  else
    match plugin with
    | .instOther => found
    | .clsOther => found
    | .instObj p => p.is_type obj
    | .clsObj p => p.is_type obj

/-- Embedding of `has_object_type_plugin`
(src/deephaven/plugin/object/__init__.py lines 7-27). -/
def has_object_type_plugin (plugins : List RegisteredPlugin) (obj : Nat) :
    Bool :=
  plugins.foldl (isObjectTypeStep obj) false

/-- Embedding of `Registration.collect_plugins`
(src/deephaven/plugin/__init__.py lines 52-63): the `Collector` callback
appends each registered plugin to its output list; `registerCalls` is the
ordered sequence of `callback.register` invocations that the registration's
`register_into` performs. -/
def collect_plugins (registerCalls : List RegisteredPlugin) :
    List RegisteredPlugin :=
  registerCalls.foldl (fun output plugin => output ++ [plugin]) []

lemma visitorStep_foldl_some (obj : Nat) (p : ObjectTypeModel)
    (plugins : List RegisteredPlugin) :
    plugins.foldl (visitorStep obj) (some p) = some p := by
  induction plugins with
  | nil => rfl
  | cons q rest ih => simpa [visitorStep] using ih

/-- C2. `find_object_type` returns the first registered plugin, in
registration order, that is (or instantiates to) an `ObjectType` whose
`is_type obj` is true, and returns none when no registered handler
matches. -/
theorem find_object_type_first_match (plugins : List RegisteredPlugin)
    (obj : Nat) :
    find_object_type plugins obj = firstMatchingHandler plugins obj := by
  induction plugins with
  | nil => rfl
  | cons p rest ih =>
    cases p with
    | instObj q =>
      by_cases hq : q.is_type obj
      · simp [find_object_type, firstMatchingHandler, visitorStep,
          RegisteredPlugin.handlerOf, hq, visitorStep_foldl_some]
      · simpa [find_object_type, firstMatchingHandler, visitorStep,
          RegisteredPlugin.handlerOf, hq] using ih
    | clsObj q =>
      by_cases hq : q.is_type obj
      · simp [find_object_type, firstMatchingHandler, visitorStep,
          RegisteredPlugin.handlerOf, hq, visitorStep_foldl_some]
      · simpa [find_object_type, firstMatchingHandler, visitorStep,
          RegisteredPlugin.handlerOf, hq] using ih
    | instOther =>
      simpa [find_object_type, firstMatchingHandler, visitorStep,
        RegisteredPlugin.handlerOf] using ih
    | clsOther =>
      simpa [find_object_type, firstMatchingHandler, visitorStep,
        RegisteredPlugin.handlerOf] using ih

lemma isObjectTypeStep_foldl_true (obj : Nat)
    (plugins : List RegisteredPlugin) :
    plugins.foldl (isObjectTypeStep obj) true = true := by
  induction plugins with
  | nil => rfl
  | cons q rest ih => simpa [isObjectTypeStep] using ih

/-- C8. The boolean probe `has_object_type_plugin` agrees with the resolver
`find_object_type`: it returns true exactly when some registered handler
matches, i.e. exactly when `find_object_type` returns a handler. -/
theorem has_object_type_plugin_iff_find (plugins : List RegisteredPlugin)
    (obj : Nat) :
    has_object_type_plugin plugins obj
      = (find_object_type plugins obj).isSome := by
  induction plugins with
  | nil => rfl
  | cons p rest ih =>
    cases p with
    | instObj q =>
      by_cases hq : q.is_type obj
      · simp [has_object_type_plugin, find_object_type, visitorStep,
          isObjectTypeStep, hq, visitorStep_foldl_some,
          isObjectTypeStep_foldl_true]
      · simpa [has_object_type_plugin, find_object_type, visitorStep,
          isObjectTypeStep, hq] using ih
    | clsObj q =>
      by_cases hq : q.is_type obj
      · simp [has_object_type_plugin, find_object_type, visitorStep,
          isObjectTypeStep, hq, visitorStep_foldl_some,
          isObjectTypeStep_foldl_true]
      · simpa [has_object_type_plugin, find_object_type, visitorStep,
          isObjectTypeStep, hq] using ih
    | instOther =>
      simpa [has_object_type_plugin, find_object_type, visitorStep,
        isObjectTypeStep] using ih
    | clsOther =>
      simpa [has_object_type_plugin, find_object_type, visitorStep,
        isObjectTypeStep] using ih

lemma collect_foldl_append (init : List RegisteredPlugin)
    (calls : List RegisteredPlugin) :
    calls.foldl (fun output plugin => output ++ [plugin]) init
      = init ++ calls := by
  induction calls generalizing init with
  | nil => simp
  | cons p rest ih => simp [ih]

/-- C9. `collect_plugins` returns exactly the sequence of plugins the
registration's `register_into` passed to the callback, in call order, with
duplicates kept: no filtering, reordering or de-duplication. -/
theorem collect_plugins_exact (registerCalls : List RegisteredPlugin) :
    collect_plugins registerCalls = registerCalls := by
  simpa using collect_foldl_append [] registerCalls

/-- The reference table of one export context: the object-identity to
`Reference` mapping (an association list whose most recent entry wins) and
the next sequential index to mint. -/
structure ExportContext where
  entries : List (Nat × Reference)
  nextIndex : Nat
deriving DecidableEq, Repr

/-- Modelled from the spec: `Exporter.reference` is an abstract method in this
repository (src/deephaven/plugin/object.py lines 29-36 declare only its
contract; the backing reference table lives in the host server). Spec
section 4.1: if `obj` already has an entry and `force_new` is false, return
the existing `Reference`; otherwise resolve the type tag via type
resolution; if no handler matches and `allow_unknown_type` is false, return
none with no entry created; otherwise allocate the next sequential index,
store the mapping (a fresh mapping when `force_new`), and return it. -/
def exporterReference (plugins : List RegisteredPlugin) (ctx : ExportContext)
    (obj : Nat) (allow_unknown_type : Bool) (force_new : Bool) :
    Option Reference × ExportContext :=
  match (if force_new then none else ctx.entries.lookup obj) with
  | some r => (some r, ctx)
  | none =>
    match find_object_type plugins obj with
    | some h =>
      let r : Reference := ⟨ctx.nextIndex, some h.name⟩
      (some r, ⟨(obj, r) :: ctx.entries, ctx.nextIndex + 1⟩)
    | none =>
      if allow_unknown_type then
        let r : Reference := ⟨ctx.nextIndex, none⟩
        (some r, ⟨(obj, r) :: ctx.entries, ctx.nextIndex + 1⟩)
      else
        (none, ctx)

lemma lookup_after_success (plugins : List RegisteredPlugin)
    (ctx : ExportContext) (obj : Nat) (aut fn : Bool) (r : Reference)
    (ctx1 : ExportContext)
    (h : exporterReference plugins ctx obj aut fn = (some r, ctx1)) :
    ctx1.entries.lookup obj = some r := by
  unfold exporterReference at h
  cases hl : (if fn then none else ctx.entries.lookup obj) with
  | some r0 =>
    rw [hl] at h
    obtain ⟨hr, hc⟩ := Prod.mk.injEq .. ▸ h
    subst hc
    simp_all
  | none =>
    rw [hl] at h
    cases hf : find_object_type plugins obj with
    | some hdl =>
      rw [hf] at h
      obtain ⟨hr, hc⟩ := Prod.mk.injEq .. ▸ h
      subst hc
      simp_all [List.lookup]
    | none =>
      rw [hf] at h
      cases haut : aut with
      | true =>
        rw [haut] at h
        simp only [if_true] at h
        obtain ⟨hr, hc⟩ := Prod.mk.injEq .. ▸ h
        subst hc
        simp_all [List.lookup]
      | false =>
        rw [haut] at h
        simp only [if_false] at h
        exact absurd (congrArg Prod.fst h) (by simp)

/-- C1. Once a call to `exporterReference` has exported `obj` and returned
reference `r` leaving the table in state `ctx1`, a second call for the same
`obj` with `force_new` false returns the same existing reference `r` (same
index) and leaves the table unchanged, rather than minting a new one. -/
theorem reference_dedup (plugins : List RegisteredPlugin)
    (ctx : ExportContext) (obj : Nat) (aut fn aut2 : Bool) (r : Reference)
    (ctx1 : ExportContext)
    (h : exporterReference plugins ctx obj aut fn = (some r, ctx1)) :
    exporterReference plugins ctx1 obj aut2 false = (some r, ctx1) := by
  have hl := lookup_after_success plugins ctx obj aut fn r ctx1 h
  simp [exporterReference, hl]

/-- A demonstration handler accepting every object. -/
def demoHandler : ObjectTypeModel := ⟨"demo", fun _ => true⟩

/-- A demonstration registration sequence holding the one demo handler. -/
def demoPlugins : List RegisteredPlugin := [.instObj demoHandler]

/-- Witness for C1: exporting object 0 into an empty context mints reference
index 0; the second call returns that same reference and does not touch the
table. -/
theorem reference_dedup_witness :
    exporterReference demoPlugins ⟨[(0, ⟨0, some "demo"⟩)], 1⟩ 0 false false
      = (some ⟨0, some "demo"⟩, ⟨[(0, ⟨0, some "demo"⟩)], 1⟩) :=
  reference_dedup demoPlugins ⟨[], 0⟩ 0 false false false ⟨0, some "demo"⟩
    ⟨[(0, ⟨0, some "demo"⟩)], 1⟩ rfl

/-- Counterexample for C3 as stated: object 0 has no matching handler (the
registration sequence is empty), yet after it was previously exported with
`allow_unknown_type` true, a call with `allow_unknown_type` false returns
the existing reference, not none. -/
theorem reference_unknown_counterexample :
    (exporterReference []
        (exporterReference [] ⟨[], 0⟩ 0 true false).2 0 false false).1
      ≠ none := by decide

/-- C3 (amended). For an object with no matching registered handler and no
existing entry in the reference table, `exporterReference` with
`allow_unknown_type` false returns none and leaves the context unchanged:
no entry is created and no index is consumed. -/
theorem reference_unknown_no_mutation (plugins : List RegisteredPlugin)
    (ctx : ExportContext) (obj : Nat) (fn : Bool)
    (hnf : find_object_type plugins obj = none)
    (hne : ctx.entries.lookup obj = none) :
    exporterReference plugins ctx obj false fn = (none, ctx) := by
  cases fn <;> simp [exporterReference, hnf, hne]

/-- Witness for C3 (amended): with no registered plugins and an empty table,
exporting object 0 without `allow_unknown_type` yields none and the empty
context. -/
theorem reference_unknown_no_mutation_witness :
    exporterReference [] ⟨[], 0⟩ 0 false false = (none, ⟨[], 0⟩) :=
  reference_unknown_no_mutation [] ⟨[], 0⟩ 0 false rfl rfl

/-- A `MessageSender` as seen through `BidiObjectBase`: only its identity is
observable here; its `send_message`/`reference` behavior is the host
adapter's. -/
structure MessageSenderModel where
  id : Nat
deriving DecidableEq, Repr

/-- Embedding of the state of a `BidiObjectBase` instance
(src/deephaven/plugin/object.py lines 96-149): its only field is the
optional `_dh_message_sender`, so it has no queue and can hold at most one
sender at a time. -/
structure BidiObjectBase where
  dh_message_sender : Option MessageSenderModel
deriving DecidableEq, Repr

/-- Embedding of `BidiObjectBase.__init__`: starts with no sender. -/
def BidiObjectBase.init : BidiObjectBase := ⟨none⟩

/-- Embedding of `BidiObjectBase.add_message_sender`: assigns the field,
replacing whatever sender was attached before. -/
def BidiObjectBase.add_message_sender (o : BidiObjectBase)
    (sender : MessageSenderModel) : BidiObjectBase :=
  ⟨some sender⟩

/-- Embedding of `BidiObjectBase.remove_message_sender`: clears the field. -/
def BidiObjectBase.remove_message_sender (o : BidiObjectBase) :
    BidiObjectBase :=
  ⟨none⟩

/-- A `Union[str, bytes]` message argument of `send_message`. `bytesMsg`
models a value whose exact Python type is `bytes`; `strMsg` a `str` (whose
`str(...)` is itself). -/
inductive PyMessage where
  | bytesMsg (data : List Nat)
  | strMsg (s : String)
deriving DecidableEq, Repr

/-- The `message_bytes` computed inside `BidiObjectBase.send_message`
(src/deephaven/plugin/object.py line 148): the message itself when
`type(message) == bytes`, otherwise `str(message).encode(encoding)`.
`encode` models Python's `str.encode`, taking the string and the encoding
name. -/
def messageBytes (encode : String → String → List Nat)
    (message : PyMessage) (encoding : String) : List Nat :=
  match message with
  | .bytesMsg data => data
  | .strMsg s => encode s encoding

/-- An observable delivery to a sender: which sender received which bytes. -/
structure SendEvent where
  senderId : Nat
  payload : List Nat
deriving DecidableEq, Repr

/-- Embedding of `BidiObjectBase.send_message` (src/deephaven/plugin/object.py
lines 140-149), returning the list of deliveries the call makes to the
attached sender: none when no sender is attached (the body is guarded by
`if self._dh_message_sender`), exactly one otherwise. The object state is
not changed by the call. -/
def BidiObjectBase.send_message (o : BidiObjectBase)
    (encode : String → String → List Nat) (message : PyMessage)
    (encoding : String) : List SendEvent :=
  match o.dh_message_sender with
  | none => []
  | some sender => [⟨sender.id, messageBytes encode message encoding⟩]

/-- Embedding of `BidiObjectBase.reference` (src/deephaven/plugin/object.py
lines 125-138): delegates to the attached sender's `reference`, modelled by
`senderRef` applied to the sender's identity; the guard
`if self._dh_message_sender` makes it return `None` when no sender is
attached. -/
def BidiObjectBase.referenceThrough (o : BidiObjectBase)
    (senderRef : Nat → Nat → Option Reference) (obj : Nat) :
    Option Reference :=
  match o.dh_message_sender with
  | none => none
  | some sender => senderRef sender.id obj

/-- C4. With no sender attached (as after `remove_message_sender`),
`send_message` delivers nothing, raises nothing and queues nothing — the
state has no queue, so even after a sender is attached later, a new
`send_message` call delivers only its own message — and `referenceThrough`
returns none. -/
theorem bidi_no_sender_noop (o : BidiObjectBase)
    (encode : String → String → List Nat) (m m2 : PyMessage)
    (enc : String) (senderRef : Nat → Nat → Option Reference) (x : Nat)
    (s : MessageSenderModel) (h : o.dh_message_sender = none) :
    o.send_message encode m enc = []
      ∧ o.referenceThrough senderRef x = none
      ∧ (o.add_message_sender s).send_message encode m2 enc
          = [⟨s.id, messageBytes encode m2 enc⟩] := by
  refine ⟨?_, ?_, ?_⟩ <;>
    simp [BidiObjectBase.send_message, BidiObjectBase.referenceThrough,
      BidiObjectBase.add_message_sender, h]

/-- Witness for C4: after removing the sender from an object that had sender
7 attached, sending the string message "hi" delivers nothing and referencing
returns none; re-attaching sender 9 then delivers only the new message. -/
theorem bidi_no_sender_noop_witness :
    (BidiObjectBase.remove_message_sender ⟨some ⟨7⟩⟩).send_message
        (fun s _ => [s.length]) (.strMsg "hi") "utf-8" = []
      ∧ (BidiObjectBase.remove_message_sender ⟨some ⟨7⟩⟩).referenceThrough
          (fun _ _ => some ⟨0, none⟩) 3 = none
      ∧ ((BidiObjectBase.remove_message_sender ⟨some ⟨7⟩⟩).add_message_sender
            ⟨9⟩).send_message (fun s _ => [s.length]) (.bytesMsg [1, 2])
          "utf-8"
          = [⟨9, messageBytes (fun s _ => [s.length]) (.bytesMsg [1, 2])
              "utf-8"⟩] :=
  bidi_no_sender_noop (BidiObjectBase.remove_message_sender ⟨some ⟨7⟩⟩)
    (fun s _ => [s.length]) (.strMsg "hi") (.bytesMsg [1, 2]) "utf-8"
    (fun _ _ => some ⟨0, none⟩) 3 ⟨9⟩ rfl

/-- C5. A `BidiObjectBase` holds at most one sender (its state is a single
optional field), and attaching a second sender replaces the first:
afterwards the attached sender is the most recent one, and `send_message`
and `referenceThrough` go only to it. -/
theorem bidi_last_attach_wins (o : BidiObjectBase)
    (s1 s2 : MessageSenderModel) (encode : String → String → List Nat)
    (m : PyMessage) (enc : String)
    (senderRef : Nat → Nat → Option Reference) (x : Nat) :
    ((o.add_message_sender s1).add_message_sender s2).dh_message_sender
        = some s2
      ∧ ((o.add_message_sender s1).add_message_sender s2).send_message
          encode m enc = [⟨s2.id, messageBytes encode m enc⟩]
      ∧ ((o.add_message_sender s1).add_message_sender s2).referenceThrough
          senderRef x = senderRef s2.id x := by
  refine ⟨rfl, rfl, rfl⟩

/-- C10. With a sender attached, `send_message` passes a message of exact
type `bytes` through unchanged, and encodes `str(message)` with the given
encoding otherwise; in both cases exactly that byte payload is delivered to
the sender. -/
theorem bidi_send_message_encoding (o : BidiObjectBase)
    (s : MessageSenderModel) (encode : String → String → List Nat)
    (data : List Nat) (text : String) (enc : String)
    (h : o.dh_message_sender = some s) :
    o.send_message encode (.bytesMsg data) enc = [⟨s.id, data⟩]
      ∧ o.send_message encode (.strMsg text) enc
          = [⟨s.id, encode text enc⟩] := by
  constructor <;> simp [BidiObjectBase.send_message, messageBytes, h]

/-- Witness for C10: with sender 4 attached, bytes `[10, 20]` go through
unchanged and the string "ab" is delivered through the encoding function. -/
theorem bidi_send_message_encoding_witness :
    (⟨some ⟨4⟩⟩ : BidiObjectBase).send_message (fun s _ => [s.length])
        (.bytesMsg [10, 20]) "utf-8" = [⟨4, [10, 20]⟩]
      ∧ (⟨some ⟨4⟩⟩ : BidiObjectBase).send_message (fun s _ => [s.length])
          (.strMsg "ab") "utf-8"
          = [⟨4, (fun (s : String) (_ : String) => [s.length]) "ab" "utf-8"⟩] :=
  bidi_send_message_encoding ⟨some ⟨4⟩⟩ ⟨4⟩ (fun s _ => [s.length])
    [10, 20] "ab" "utf-8" rfl

/-- The two states of a message stream: `Open` and the terminal `Closed`. -/
inductive StreamState where
  | opened
  | closed
deriving DecidableEq, Repr

/-- Modelled from the spec: `MessageStream` is an abstract contract in this
repository (src/deephaven/plugin/object_type.py lines 36-55 declare only
`on_close` and `on_data`). Spec sections 3 and 4.5: a stream is `Open` or
terminally `Closed`; `delivered` records the (payload, references) messages
the handler behind the stream has observed. -/
structure MessageStreamModel where
  state : StreamState
  delivered : List (List Nat × List Nat)
deriving DecidableEq, Repr

/-- Modelled from the spec: `on_data` delivers one payload together with its
references to the handler when the stream is open; on a closed stream it is
a no-op, not an error (spec section 4.5). -/
def MessageStreamModel.on_data (s : MessageStreamModel)
    (payload : List Nat) (references : List Nat) : MessageStreamModel :=
  match s.state with
  | .closed => s
  | .opened => ⟨.opened, s.delivered ++ [(payload, references)]⟩

/-- Modelled from the spec: `on_close` moves the stream to the terminal
`Closed` state; repeated closes are idempotent (spec section 4.5). -/
def MessageStreamModel.on_close (s : MessageStreamModel) :
    MessageStreamModel :=
  ⟨.closed, s.delivered⟩

/-- C6. After `on_close`, a stream is in the terminal closed state and every
subsequent `on_data` or `on_close` is a no-op: the stream (including the
log of handler deliveries) is unchanged, so no handler callback fires, no
message is delivered, and no error is raised. -/
theorem stream_close_terminal (s : MessageStreamModel)
    (p r : List Nat) :
    (s.on_close).state = .closed
      ∧ (s.on_close).on_data p r = s.on_close
      ∧ (s.on_close).on_close = s.on_close := by
  refine ⟨rfl, ?_, rfl⟩
  simp [MessageStreamModel.on_close, MessageStreamModel.on_data]

/-- Modelled from the spec: a bidirectional object type handler as observed
through `create_client_connection` (abstract in
src/deephaven/plugin/object_type.py lines 73-87): `connectionSends obj` is
the ordered sequence of (payload, references) calls the handler makes on
the provided server-to-client `connection` before returning. -/
structure BidiHandlerModel where
  name : String
  is_type : Nat → Bool
  connectionSends : Nat → List (List Nat × List Nat)

/-- Modelled from the spec: the hard contract on correct bidirectional
handlers — before `create_client_connection` returns, at least one initial
payload has been sent on the server-to-client connection (spec section 4.4
and the `create_client_connection` docstring). -/
def SendsInitialPayload (h : BidiHandlerModel) : Prop :=
  ∀ obj, h.connectionSends obj ≠ []

/-- Modelled from the spec: running `create_client_connection` applies each of
the handler's sends, in order, to the server-to-client connection, and the
call returns with the connection in the resulting state. -/
def create_client_connection (h : BidiHandlerModel) (obj : Nat)
    (connection : MessageStreamModel) : MessageStreamModel :=
  (h.connectionSends obj).foldl
    (fun c pr => c.on_data pr.1 pr.2) connection

lemma on_data_foldl_opened (calls : List (List Nat × List Nat))
    (c : MessageStreamModel) (h : c.state = .opened) :
    (calls.foldl (fun c pr => c.on_data pr.1 pr.2) c).delivered.length
        = c.delivered.length + calls.length
      ∧ (calls.foldl (fun c pr => c.on_data pr.1 pr.2) c).state
        = .opened := by
  induction calls generalizing c with
  | nil => simpa using h
  | cons pr rest ih =>
    obtain ⟨c0, d0⟩ := c
    cases h
    have := ih ⟨.opened, d0 ++ [(pr.1, pr.2)]⟩ rfl
    simpa [MessageStreamModel.on_data, Nat.add_assoc, Nat.add_comm,
      Nat.add_left_comm] using this

/-- C7. For every handler satisfying the initial-payload contract and every
open server-to-client connection, by the time `create_client_connection`
returns at least one message has been delivered on that connection: its
delivery log has grown by at least one entry. -/
theorem create_client_connection_initial (h : BidiHandlerModel) (obj : Nat)
    (connection : MessageStreamModel) (hc : SendsInitialPayload h)
    (hs : connection.state = .opened) :
    connection.delivered.length + 1
      ≤ (create_client_connection h obj connection).delivered.length := by
  obtain ⟨hlen, _⟩ := on_data_foldl_opened (h.connectionSends obj)
    connection hs
  have hne : h.connectionSends obj ≠ [] := hc obj
  have hpos : 1 ≤ (h.connectionSends obj).length :=
    Nat.succ_le_of_lt (List.length_pos.mpr hne)
  unfold create_client_connection
  omega

/-- A demonstration bidirectional handler that sends one initial payload on
every new client connection. -/
def demoBidiHandler : BidiHandlerModel :=
  ⟨"demoBidi", fun _ => true, fun _ => [([1], [])]⟩

/-- A fresh open server-to-client connection with an empty delivery log. -/
def demoConnection : MessageStreamModel := ⟨.opened, []⟩

/-- Witness for C7: attaching the demonstration handler to object 0 over a
fresh open connection leaves at least one delivered message on it. -/
theorem create_client_connection_initial_witness :
    demoConnection.delivered.length + 1
      ≤ (create_client_connection demoBidiHandler 0
          demoConnection).delivered.length :=
  create_client_connection_initial demoBidiHandler 0 demoConnection
    (fun _ => by simp [demoBidiHandler]) rfl

end DeephavenPlugin
